import Mathlib

/- Formal model of the sshsyrup SSH honeypot protocol core: the password
authentication policy, the per-channel request dispatcher, the direct-tcpip
port-forwarding resolution, and the interactive shell line loop, shallowly
embedded from ssh.go and the os-package shell source. Side effects that leave
the program (logging, socket I/O, goroutine spawning, channel sends) are
recorded in explicit event lists on the state. -/

/- ===== Password authentication policy (ssh.go, PasswordChallenge) ===== -/

/-- Server configuration booleans read from viper inside `PasswordChallenge`:
`server.allowRandomUser` and `server.allowRetryLogin`. -/
structure ServerConfig where
  allowRandomUser : Bool
  allowRetryLogin : Bool
deriving Repr, DecidableEq

/-- The permission set granted on acceptance: `successPerm` in the source has
the single extension `permit-agent-forwarding = yes`. -/
structure Permissions where
  permitAgentForwarding : Bool
deriving Repr, DecidableEq

/-- The `successPerm` value built at the top of the password callback. -/
def successPerm : Permissions := ⟨true⟩

/-- One invocation of the closure returned by `PasswordChallenge`. The user
database lookup `os.IsUserExist` lives outside the given source file, so it is
a parameter: `users name` is `some storedPassword` when the user exists and
`none` otherwise (matching the `(stpass, userExists)` pair it returns). The
result is the granted permissions (or `none` for rejection) together with the
updated `triesLeft` captured by the closure. -/
def passwordAttempt (cfg : ServerConfig) (users : String → Option String)
    (triesLeft : Int) (user pass : String) : Option Permissions × Int :=
  let stpass := (users user).getD ""
  let userExists := (users user).isSome
  if userExists && (stpass == pass) then
    (some successPerm, triesLeft)
  else if (userExists && (stpass != pass || stpass == "*")) || cfg.allowRandomUser then
    if cfg.allowRetryLogin then
      if triesLeft == 1 then (some successPerm, triesLeft)
      else (none, triesLeft - 1)
    else (some successPerm, triesLeft)
  else (none, triesLeft)

/-- The condition under which an attempt enters the deception branch of the
callback: the exact-match branch is not taken and the `else if` guard
`userExists && (stpass != pass || stpass == "*") || allowRandomUser` holds. -/
def entersDeceptionBranch (cfg : ServerConfig) (users : String → Option String)
    (user pass : String) : Bool :=
  let stpass := (users user).getD ""
  let userExists := (users user).isSome
  (!(userExists && (stpass == pass))) &&
    ((userExists && (stpass != pass || stpass == "*")) || cfg.allowRandomUser)

/-- Running the closure over a sequence of (user, password) attempts, threading
the captured `triesLeft` counter; returns the accept/reject decision of each
attempt in order. -/
def runAttempts (cfg : ServerConfig) (users : String → Option String) :
    Int → List (String × String) → List Bool
  | _, [] => []
  | t, a :: rest =>
    let r := passwordAttempt cfg users t a.1 a.2
    r.1.isSome :: runAttempts cfg users r.2 rest

theorem passwordAttempt_deception (cfg : ServerConfig) (users : String → Option String)
    (t : Int) (u p : String)
    (hd : entersDeceptionBranch cfg users u p = true)
    (hr : cfg.allowRetryLogin = true) :
    passwordAttempt cfg users t u p =
      if t == 1 then (some successPerm, t) else (none, t - 1) := by
  simp only [entersDeceptionBranch, Bool.and_eq_true, Bool.not_eq_eq_eq_not, Bool.not_true] at hd
  obtain ⟨hA, hB⟩ := hd
  simp only [passwordAttempt, hA, hB, hr, if_false, if_true, Bool.false_eq_true, ite_false,
    ite_true]

/-- Claim C1: with allow-retry-until-success enabled and the remaining-tries
counter seeded to 3, when every attempt enters the deception branch, attempts
1 and 2 are rejected regardless of the submitted password and attempt 3 is
accepted regardless of the submitted password. -/
theorem C1_retry_accepts_on_third_attempt (cfg : ServerConfig)
    (users : String → Option String) (u1 p1 u2 p2 u3 p3 : String)
    (hr : cfg.allowRetryLogin = true)
    (h1 : entersDeceptionBranch cfg users u1 p1 = true)
    (h2 : entersDeceptionBranch cfg users u2 p2 = true)
    (h3 : entersDeceptionBranch cfg users u3 p3 = true) :
    runAttempts cfg users 3 [(u1, p1), (u2, p2), (u3, p3)] = [false, false, true] := by
  have e1 := passwordAttempt_deception cfg users 3 u1 p1 h1 hr
  have e2 := passwordAttempt_deception cfg users 2 u2 p2 h2 hr
  have e3 := passwordAttempt_deception cfg users 1 u3 p3 h3 hr
  norm_num at e1 e2 e3
  simp [runAttempts, e1, e2, e3]

/-- Witness for C1 at a concrete configuration: known user root with stored
password toor, three wrong submitted passwords. -/
theorem C1_retry_accepts_on_third_attempt_witness :
    runAttempts ⟨false, true⟩ (fun u => if u == "root" then some "toor" else none) 3
      [("root", "a"), ("root", "b"), ("root", "c")] = [false, false, true] :=
  C1_retry_accepts_on_third_attempt ⟨false, true⟩
    (fun u => if u == "root" then some "toor" else none)
    "root" "a" "root" "b" "root" "c" rfl (by decide) (by decide) (by decide)

/-- Claim C4: a known user submitting exactly the stored credential (not the
wildcard sentinel) is accepted on the first such attempt, for every
configuration and every value of the remaining-tries counter. -/
theorem C4_exact_match_accepts_immediately (cfg : ServerConfig)
    (users : String → Option String) (t : Int) (u p stored : String)
    (hu : users u = some stored) (hp : stored = p) (hw : stored ≠ "*") :
    passwordAttempt cfg users t u p = (some successPerm, t) := by
  subst hp
  simp [passwordAttempt, hu]

/-- Witness for C4 at a concrete user database and both retry settings left
arbitrary at one concrete value. -/
theorem C4_exact_match_accepts_immediately_witness :
    passwordAttempt ⟨true, true⟩ (fun u => if u == "admin" then some "hunter2" else none)
      7 "admin" "hunter2" = (some successPerm, 7) :=
  C4_exact_match_accepts_immediately ⟨true, true⟩
    (fun u => if u == "admin" then some "hunter2" else none) 7 "admin" "hunter2" "hunter2"
    (by decide) rfl (by decide)

/- ===== Channel dispatcher (ssh.go, SSHSession.handleNewSession) ===== -/

/-- The Virtual Execution Context (`os.System`): terminal width and height and
the environment-variable mapping. The I/O handles (channel stream, filesystem,
logger) carried by the Go struct are outside the model. -/
structure SystemM where
  width : Int
  height : Int
  envVars : List (String × String)
deriving Repr, DecidableEq

/-- The value `os.NewSystem(user, hostname, fs, channel, w, h, log)` yields in
the model: the requested dimensions and an empty environment mapping. -/
def mkSystem (width height : Int) : SystemM :=
  { width := width, height := height, envVars := [] }

/-- A concurrent task spawned by the dispatcher with `go`: the Shell loop, the
sftp service, or the scp service with its argument list. -/
inductive GoTask where
  | shellTask : GoTask
  | sftpTask : GoTask
  | scpTask (args : List String) : GoTask
deriving Repr, DecidableEq

/-- Parsed payload of a pty-req request (`ptyRequest` in the source). -/
structure PtyReq where
  term : String
  width : Int
  height : Int
deriving Repr, DecidableEq

/-- Parsed payload of an env request (`envRequest` in the source). -/
structure EnvReq where
  name : String
  value : String
deriving Repr, DecidableEq

/-- Contents of the `winChgRequest` struct after `ssh.Unmarshal` returns. -/
structure WinChg where
  width : Int
  height : Int
deriving Repr, DecidableEq

/-- Big-endian uint32 parser of `ssh.Unmarshal` (`parseUint32` in x/crypto):
consumes four bytes or fails. -/
def parseUint32 : List Nat → Option (Nat × List Nat)
  | b0 :: b1 :: b2 :: b3 :: rest =>
      some (((b0 * 256 + b1) * 256 + b2) * 256 + b3, rest)
  | _ => none

/-- Embedding of `ssh.Unmarshal(req.Payload, winChg)` for the two-uint32
struct `winChgRequest`, returning the struct contents when the call returns
together with the success flag. Faithful to x/crypto: fields are assigned one
by one as they parse, a failing field returns the error with the earlier
fields already assigned and the rest still zero, and trailing bytes after the
last field are also an error (so the standard 16-byte window-change payload,
which carries four uint32 words, assigns its real width and height and then
fails on the 8 trailing pixel-dimension bytes). -/
def unmarshalWinChg (payload : List Nat) : WinChg × Bool :=
  match parseUint32 payload with
  | none => ({ width := 0, height := 0 }, false)
  | some (w, rest) =>
      match parseUint32 rest with
      | none => ({ width := (w : Int), height := 0 }, false)
      | some (h, rest2) =>
          if rest2.isEmpty then ({ width := (w : Int), height := (h : Int) }, true)
          else ({ width := (w : Int), height := (h : Int) }, false)

/-- One typed channel request as dispatched by the switch in
`handleNewSession`. For pty-req and env the parsed payload is carried as
`Option`: `none` models a payload `ssh.Unmarshal` rejects, which is sound for
those two arms because on failure they only reply false and never read the
partially assigned struct. The window-change arm does read the struct after a
failed unmarshal, so that request carries its raw payload bytes and the arm
runs `unmarshalWinChg` itself. -/
inductive Request where
  | puttyNoop : Request
  | ptyReq (payload : Option PtyReq) : Request
  | envReq (payload : Option EnvReq) : Request
  | shellReq : Request
  | subsystemReq (name : String) : Request
  | windowChange (payload : List Nat) : Request
  | execReq (cmd : String) : Request
  | otherReq (reqType : String) : Request
deriving Repr, DecidableEq

/-- Observable state of one session-type channel dispatcher: the session's
context pointer `s.sys`, the stored terminal name `s.term`, whether the local
`sh` variable is non-nil (a Shell was started), and event logs: the `req.Reply`
booleans sent, the values written to the `quitSignal` channel by the dispatcher
itself, the tasks spawned with `go`, the raw bytes written to the channel, the
`sh.SetSize` calls made, and how many times a fresh context was constructed by
`os.NewSystem`. -/
structure ChanState where
  sys : Option SystemM
  term : String
  shellRunning : Bool
  replies : List Bool
  quitWrites : List Int
  tasks : List GoTask
  chanWrites : List String
  setSizeCalls : List (Int × Int)
  sysCreations : Nat
deriving Repr, DecidableEq

/-- The dispatcher state at channel acceptance. -/
def initChanState : ChanState :=
  { sys := none, term := "", shellRunning := false, replies := [], quitWrites := [],
    tasks := [], chanWrites := [], setSizeCalls := [], sysCreations := 0 }

/-- Character-list splitter underlying `goSplitSpace`. -/
def goSplitSpaceAux : List Char → List Char → List String
  | [], acc => [String.mk acc.reverse]
  | c :: cs, acc =>
      if c == ' ' then String.mk acc.reverse :: goSplitSpaceAux cs []
      else goSplitSpaceAux cs (c :: acc)

/-- Go `strings.Split(cmd, " ")` for the single-space separator: never returns
an empty list (the empty string splits to one empty field). -/
def goSplitSpace (s : String) : List String := goSplitSpaceAux s.toList []

/-- Boolean prefix test on character lists. -/
def charsStartWith : List Char → List Char → Bool
  | _, [] => true
  | [], _ :: _ => false
  | a :: as, b :: bs => a == b && charsStartWith as bs

/-- Go `strings.HasPrefix(s, pre)`. -/
def goStartsWith (s pre : String) : Bool := charsStartWith s.toList pre.toList

/-- Processing of one request by the switch statement inside the request loop
of `handleNewSession`. `execFn` abstracts `sys.Exec(args[0], args[1:])` (the
Command Table dispatch, which lives in the os package): it returns the exit
code together with `true` on success, and the code with `false` when the
command is not found. -/
def dispatchStep (execFn : String → List String → Int × Bool)
    (st : ChanState) : Request → ChanState
  | .puttyNoop => st
  | .ptyReq none => { st with replies := st.replies ++ [false] }
  | .ptyReq (some p) =>
      { st with sys := some (mkSystem p.width p.height),
                sysCreations := st.sysCreations + 1,
                term := p.term,
                replies := st.replies ++ [true] }
  | .envReq none => { st with replies := st.replies ++ [false] }
  | .envReq (some _) => { st with replies := st.replies ++ [true] }
  | .shellReq =>
      let st1 := match st.sys with
        | none => { st with sys := some (mkSystem 80 24),
                            sysCreations := st.sysCreations + 1 }
        | some _ => st
      { st1 with shellRunning := true,
                 tasks := st1.tasks ++ [GoTask.shellTask],
                 replies := st1.replies ++ [true] }
  | .subsystemReq name =>
      if name == "sftp" then
        { st with tasks := st.tasks ++ [GoTask.sftpTask], replies := st.replies ++ [true] }
      else
        { st with replies := st.replies ++ [false] }
  | .windowChange payload =>
      if st.shellRunning then
        let r := unmarshalWinChg payload
        let st1 := if r.2 then st
                   else { st with replies := st.replies ++ [false] }
        { st1 with setSizeCalls := st1.setSizeCalls ++ [(r.1.width, r.1.height)] }
      else st
  | .execReq cmd =>
      let args := goSplitSpace cmd
      let st1 := if st.sys.isSome then st
                 else { st with sysCreations := st.sysCreations + 1 }
      if goStartsWith (args.headD "") "scp" then
        { st1 with tasks := st1.tasks ++ [GoTask.scpTask args.tail],
                   replies := st1.replies ++ [true] }
      else
        let r := execFn (args.headD "") args.tail
        let st2 := if r.2 then st1
                   else { st1 with chanWrites :=
                            st1.chanWrites ++ [cmd ++ ": command not found\r\n"] }
        { st2 with quitWrites := st2.quitWrites ++ [r.1],
                   replies := st2.replies ++ [true] }
  | .otherReq _ => st

/-- Sequential processing of a request list, in arrival order, by the
dispatcher loop. -/
def dispatchList (execFn : String → List String → Int × Bool)
    (st : ChanState) (reqs : List Request) : ChanState :=
  reqs.foldl (dispatchStep execFn) st

/-- Counterexample to claim C2: processing a shell request followed by a
second shell request from the initial state, the second request also receives
a success reply and a second Shell task is spawned, contradicting the claimed
reply-failure policy. -/
theorem C2_counterexample_second_shell_succeeds :
    (dispatchList (fun _ _ => (0, true)) initChanState
        [Request.shellReq, Request.shellReq]).replies = [true, true] ∧
    (dispatchList (fun _ _ => (0, true)) initChanState
        [Request.shellReq, Request.shellReq]).tasks
      = [GoTask.shellTask, GoTask.shellTask] := by
  constructor <;> rfl

/-- Claim C2 amended: the dispatcher never guards against a repeated shell
request; even after a Shell task has already been started, a further shell
request replies success and spawns another Shell task. -/
theorem C2_amended_second_shell_also_starts
    (execFn : String → List String → Int × Bool) (st : ChanState)
    (hprev : GoTask.shellTask ∈ st.tasks) :
    (dispatchStep execFn st Request.shellReq).replies = st.replies ++ [true] ∧
    (dispatchStep execFn st Request.shellReq).tasks = st.tasks ++ [GoTask.shellTask] := by
  cases h : st.sys <;> simp [dispatchStep, h]

/-- Witness for the amended C2 at the state reached by one granted shell
request. -/
theorem C2_amended_second_shell_also_starts_witness :
    (dispatchStep (fun _ _ => (0, true))
        (dispatchList (fun _ _ => (0, true)) initChanState [Request.shellReq])
        Request.shellReq).replies
      = (dispatchList (fun _ _ => (0, true)) initChanState [Request.shellReq]).replies
          ++ [true] ∧
    (dispatchStep (fun _ _ => (0, true))
        (dispatchList (fun _ _ => (0, true)) initChanState [Request.shellReq])
        Request.shellReq).tasks
      = (dispatchList (fun _ _ => (0, true)) initChanState [Request.shellReq]).tasks
          ++ [GoTask.shellTask] :=
  C2_amended_second_shell_also_starts (fun _ _ => (0, true))
    (dispatchList (fun _ _ => (0, true)) initChanState [Request.shellReq]) (by decide)

/-- An exec request whose first space-separated token does not begin with scp:
exactly these requests make the dispatcher write the quit signal. -/
def isNonScpExec : Request → Bool
  | .execReq cmd => !(goStartsWith ((goSplitSpace cmd).headD "") "scp")
  | _ => false

theorem quitWrites_length_step (execFn : String → List String → Int × Bool)
    (st : ChanState) (r : Request) :
    (dispatchStep execFn st r).quitWrites.length
      = st.quitWrites.length + (if isNonScpExec r then 1 else 0) := by
  cases r with
  | puttyNoop => simp [dispatchStep, isNonScpExec]
  | ptyReq payload => cases payload <;> simp [dispatchStep, isNonScpExec]
  | envReq payload => cases payload <;> simp [dispatchStep, isNonScpExec]
  | shellReq => cases h : st.sys <;> simp [dispatchStep, isNonScpExec, h]
  | subsystemReq name =>
      by_cases h : name == "sftp" <;> simp [dispatchStep, isNonScpExec, h]
  | windowChange payload =>
      cases h : st.shellRunning <;> cases h2 : (unmarshalWinChg payload).2 <;>
        simp [dispatchStep, isNonScpExec, h, h2]
  | execReq cmd =>
      simp only [dispatchStep, isNonScpExec, List.headD_eq_head?]
      by_cases h : goStartsWith ((goSplitSpace cmd).head?.getD "") "scp" = true <;>
        cases hs : st.sys.isSome <;>
          cases h2 : (execFn ((goSplitSpace cmd).head?.getD "") (goSplitSpace cmd).tail).2 <;>
            simp [h, hs, h2]
  | otherReq t => simp [dispatchStep, isNonScpExec]

/-- Counterexample to claim C5: two exec requests processed on the same
channel produce two quit-signal writes by the dispatcher. -/
theorem C5_counterexample_two_execs_two_quit_writes :
    (dispatchList (fun _ _ => (0, true)) initChanState
        [Request.execReq "ls", Request.execReq "pwd"]).quitWrites = [0, 0] := by
  rfl

/-- Claim C5 amended: the dispatcher performs one quit-signal write per
processed exec request whose command does not begin with scp, so a request
sequence containing several such exec requests produces several writes;
at-most-once per channel is not enforced. -/
theorem C5_amended_one_quit_write_per_exec
    (execFn : String → List String → Int × Bool) (st : ChanState)
    (reqs : List Request) :
    (dispatchList execFn st reqs).quitWrites.length
      = st.quitWrites.length + (reqs.filter isNonScpExec).length := by
  induction reqs generalizing st with
  | nil => simp [dispatchList]
  | cons r rest ih =>
      have hstep := quitWrites_length_step execFn st r
      simp only [dispatchList, List.foldl_cons] at ih ⊢
      rw [ih (dispatchStep execFn st r), hstep]
      cases hr : isNonScpExec r <;> simp [List.filter_cons, hr] <;> omega

/-- Counterexample to claim C6: two granted pty-req requests on the same
session create the Virtual Execution Context twice, the second creation
replacing the first (the stored context has the dimensions of the second
request, and its environment restarts empty). -/
theorem C6_counterexample_pty_req_recreates_context :
    (dispatchList (fun _ _ => (0, true)) initChanState
        [Request.ptyReq (some ⟨"xterm", 120, 40⟩),
         Request.ptyReq (some ⟨"vt100", 132, 50⟩)]).sysCreations = 2 ∧
    (dispatchList (fun _ _ => (0, true)) initChanState
        [Request.ptyReq (some ⟨"xterm", 120, 40⟩),
         Request.ptyReq (some ⟨"vt100", 132, 50⟩)]).sys = some (mkSystem 132 50) := by
  constructor <;> rfl

/-- Claim C6 amended: a granted pty-req always constructs a fresh context and
stores it, replacing any existing one; a shell request creates the context
only when absent; an exec request constructs a transient context when the
session has none but never stores it, leaving the session context unchanged. -/
theorem C6_amended_context_creation (execFn : String → List String → Int × Bool)
    (st : ChanState) (p : PtyReq) (cmd : String) :
    (dispatchStep execFn st (Request.ptyReq (some p))).sys
        = some (mkSystem p.width p.height) ∧
    (dispatchStep execFn st (Request.ptyReq (some p))).sysCreations
        = st.sysCreations + 1 ∧
    (dispatchStep execFn st Request.shellReq).sysCreations
        = (if st.sys.isSome then st.sysCreations else st.sysCreations + 1) ∧
    (dispatchStep execFn st Request.shellReq).sys
        = (if st.sys.isSome then st.sys else some (mkSystem 80 24)) ∧
    (dispatchStep execFn st (Request.execReq cmd)).sys = st.sys ∧
    (dispatchStep execFn st (Request.execReq cmd)).sysCreations
        = (if st.sys.isSome then st.sysCreations else st.sysCreations + 1) := by
  refine ⟨by simp [dispatchStep], by simp [dispatchStep], ?_, ?_, ?_, ?_⟩
  · cases h : st.sys <;> simp [dispatchStep, h]
  · cases h : st.sys <;> simp [dispatchStep, h]
  · cases h : st.sys <;>
      by_cases hp : goStartsWith ((goSplitSpace cmd).headD "") "scp" = true <;>
        cases h2 : (execFn ((goSplitSpace cmd).headD "") (goSplitSpace cmd).tail).2 <;>
          simp_all [dispatchStep]
  · cases h : st.sys <;>
      by_cases hp : goStartsWith ((goSplitSpace cmd).headD "") "scp" = true <;>
        cases h2 : (execFn ((goSplitSpace cmd).headD "") (goSplitSpace cmd).tail).2 <;>
          simp_all [dispatchStep]

/-- Counterexample to claim C7: a parseable env request is replied success but
the environment mapping of the context stays empty (nothing is recorded), and
an unparseable env request is replied failure rather than success. -/
theorem C7_counterexample_env_never_recorded :
    (dispatchList (fun _ _ => (0, true)) initChanState
        [Request.ptyReq (some ⟨"xterm", 80, 24⟩),
         Request.envReq (some ⟨"FOO", "BAR"⟩)]).replies = [true, true] ∧
    (dispatchList (fun _ _ => (0, true)) initChanState
        [Request.ptyReq (some ⟨"xterm", 80, 24⟩),
         Request.envReq (some ⟨"FOO", "BAR"⟩)]).sys = some (mkSystem 80 24) ∧
    (dispatchList (fun _ _ => (0, true)) initChanState
        [Request.envReq none]).replies = [false] := by
  refine ⟨rfl, rfl, rfl⟩

/-- Claim C7 amended: an env request is parsed and logged only; the reply is
success exactly when the payload parses (failure otherwise), and the Virtual
Execution Context, in particular its environment mapping, is unchanged. -/
theorem C7_amended_env_logged_not_recorded
    (execFn : String → List String → Int × Bool) (st : ChanState)
    (payload : Option EnvReq) :
    (dispatchStep execFn st (Request.envReq payload)).replies
        = st.replies ++ [payload.isSome] ∧
    (dispatchStep execFn st (Request.envReq payload)).sys = st.sys := by
  cases payload <;> simp [dispatchStep]

/-- Claim C9: an exec request whose first space-separated token merely begins
with scp (for example scpfoo) spawns the File-Copy Service with the remaining
tokens as arguments and replies success, without consulting the Command Table
(the resulting state does not depend on the exec function) and without
writing the quit signal. -/
theorem C9_exec_scp_prefix_spawns_scp
    (execFn execFn2 : String → List String → Int × Bool)
    (st : ChanState) (cmd : String)
    (h : goStartsWith ((goSplitSpace cmd).headD "") "scp" = true) :
    (dispatchStep execFn st (Request.execReq cmd)).replies = st.replies ++ [true] ∧
    (dispatchStep execFn st (Request.execReq cmd)).tasks
        = st.tasks ++ [GoTask.scpTask (goSplitSpace cmd).tail] ∧
    (dispatchStep execFn st (Request.execReq cmd)).quitWrites = st.quitWrites ∧
    dispatchStep execFn st (Request.execReq cmd)
        = dispatchStep execFn2 st (Request.execReq cmd) := by
  cases hs : st.sys <;> simp_all [dispatchStep]

/-- Witness for C9 with the command line scpfoo -t . and two different
Command Table functions. -/
theorem C9_exec_scp_prefix_spawns_scp_witness :
    (dispatchStep (fun _ _ => (0, true)) initChanState
        (Request.execReq "scpfoo -t .")).replies = initChanState.replies ++ [true] ∧
    (dispatchStep (fun _ _ => (0, true)) initChanState
        (Request.execReq "scpfoo -t .")).tasks
      = initChanState.tasks ++ [GoTask.scpTask (goSplitSpace "scpfoo -t .").tail] ∧
    (dispatchStep (fun _ _ => (0, true)) initChanState
        (Request.execReq "scpfoo -t .")).quitWrites = initChanState.quitWrites ∧
    dispatchStep (fun _ _ => (0, true)) initChanState (Request.execReq "scpfoo -t .")
      = dispatchStep (fun _ _ => (1, false)) initChanState
          (Request.execReq "scpfoo -t .") :=
  C9_exec_scp_prefix_spawns_scp (fun _ _ => (0, true)) (fun _ _ => (1, false))
    initChanState "scpfoo -t ." (by decide)

/- ===== Shell sizing (os package, Shell.SetSize) ===== -/

/-- The line-editing terminal abstraction, reduced to the dimensions that
`terminal.SetSize` records. -/
structure TerminalM where
  width : Int
  height : Int
deriving Repr, DecidableEq

/-- The Shell leaf service: its Virtual Execution Context, its terminal, the
values it has written to the termination signal, and the messages it has
written to the terminal. -/
structure ShellSt where
  sys : SystemM
  terminal : TerminalM
  termWrites : List Int
  outWrites : List String
deriving Repr, DecidableEq

/-- Embedding of `Shell.SetSize`: stores the new width and height into the
context of the shell and forwards them to the terminal. -/
def Shell.SetSize (sh : ShellSt) (width height : Int) : ShellSt :=
  { sh with sys := { sh.sys with width := width, height := height },
            terminal := { width := width, height := height } }

/-- Counterexample to claim C10: the standard 16-byte window-change payload
announcing 120 columns and 40 rows fails to unmarshal into the two-field
`winChgRequest` (8 trailing pixel-dimension bytes remain), the dispatcher
replies failure, and the dimensions then applied are the real parsed (120, 40),
not the claimed zero-valued (0, 0). -/
theorem C10_counterexample_nonzero_dims_applied :
    (unmarshalWinChg [0, 0, 0, 120, 0, 0, 0, 40, 0, 0, 0, 0, 0, 0, 0, 0]).2 = false ∧
    (dispatchStep (fun _ _ => (0, true)) { initChanState with shellRunning := true }
        (Request.windowChange
          [0, 0, 0, 120, 0, 0, 0, 40, 0, 0, 0, 0, 0, 0, 0, 0])).replies = [false] ∧
    (dispatchStep (fun _ _ => (0, true)) { initChanState with shellRunning := true }
        (Request.windowChange
          [0, 0, 0, 120, 0, 0, 0, 40, 0, 0, 0, 0, 0, 0, 0, 0])).setSizeCalls
      = [(120, 40)] ∧
    ((120 : Int), (40 : Int)) ≠ ((0 : Int), (0 : Int)) := by
  refine ⟨rfl, rfl, rfl, by decide⟩

/-- Claim C10 amended: while a Shell is running, a window-change request whose
payload fails to unmarshal is replied failure, and `Shell.SetSize` is
nevertheless still called with whatever dimensions the unmarshaller assigned
before failing (zero only for the fields it never reached: an empty payload
applies (0, 0), but a standard 16-byte payload applies its real width and
height), and the call stores those dimensions into the running Shell context
and its terminal. -/
theorem C10_window_change_failure_applies_parsed_dims
    (execFn : String → List String → Int × Bool) (st : ChanState) (sh : ShellSt)
    (payload : List Nat)
    (hsh : st.shellRunning = true)
    (hfail : (unmarshalWinChg payload).2 = false) :
    (dispatchStep execFn st (Request.windowChange payload)).replies
        = st.replies ++ [false] ∧
    (dispatchStep execFn st (Request.windowChange payload)).setSizeCalls
        = st.setSizeCalls
            ++ [((unmarshalWinChg payload).1.width, (unmarshalWinChg payload).1.height)] ∧
    (unmarshalWinChg []).1 = { width := 0, height := 0 } ∧
    (Shell.SetSize sh (unmarshalWinChg payload).1.width
        (unmarshalWinChg payload).1.height).sys.width
        = (unmarshalWinChg payload).1.width ∧
    (Shell.SetSize sh (unmarshalWinChg payload).1.width
        (unmarshalWinChg payload).1.height).sys.height
        = (unmarshalWinChg payload).1.height ∧
    (Shell.SetSize sh (unmarshalWinChg payload).1.width
        (unmarshalWinChg payload).1.height).terminal
        = { width := (unmarshalWinChg payload).1.width,
            height := (unmarshalWinChg payload).1.height } := by
  refine ⟨?_, ?_, rfl, rfl, rfl, rfl⟩ <;> simp [dispatchStep, hsh, hfail]

/-- Witness for the amended C10 at a concrete running-shell state, a concrete
shell, and the standard 16-byte payload for 120 by 40. -/
theorem C10_window_change_failure_applies_parsed_dims_witness :
    (dispatchStep (fun _ _ => (0, true)) { initChanState with shellRunning := true }
        (Request.windowChange
          [0, 0, 0, 120, 0, 0, 0, 40, 0, 0, 0, 0, 0, 0, 0, 0])).replies
      = ({ initChanState with shellRunning := true } : ChanState).replies ++ [false] ∧
    (dispatchStep (fun _ _ => (0, true)) { initChanState with shellRunning := true }
        (Request.windowChange
          [0, 0, 0, 120, 0, 0, 0, 40, 0, 0, 0, 0, 0, 0, 0, 0])).setSizeCalls
      = ({ initChanState with shellRunning := true } : ChanState).setSizeCalls
          ++ [((unmarshalWinChg
                  [0, 0, 0, 120, 0, 0, 0, 40, 0, 0, 0, 0, 0, 0, 0, 0]).1.width,
               (unmarshalWinChg
                  [0, 0, 0, 120, 0, 0, 0, 40, 0, 0, 0, 0, 0, 0, 0, 0]).1.height)] ∧
    (unmarshalWinChg []).1 = { width := 0, height := 0 } ∧
    (Shell.SetSize ⟨mkSystem 80 24, ⟨80, 24⟩, [], []⟩
        (unmarshalWinChg [0, 0, 0, 120, 0, 0, 0, 40, 0, 0, 0, 0, 0, 0, 0, 0]).1.width
        (unmarshalWinChg
          [0, 0, 0, 120, 0, 0, 0, 40, 0, 0, 0, 0, 0, 0, 0, 0]).1.height).sys.width
      = (unmarshalWinChg [0, 0, 0, 120, 0, 0, 0, 40, 0, 0, 0, 0, 0, 0, 0, 0]).1.width ∧
    (Shell.SetSize ⟨mkSystem 80 24, ⟨80, 24⟩, [], []⟩
        (unmarshalWinChg [0, 0, 0, 120, 0, 0, 0, 40, 0, 0, 0, 0, 0, 0, 0, 0]).1.width
        (unmarshalWinChg
          [0, 0, 0, 120, 0, 0, 0, 40, 0, 0, 0, 0, 0, 0, 0, 0]).1.height).sys.height
      = (unmarshalWinChg [0, 0, 0, 120, 0, 0, 0, 40, 0, 0, 0, 0, 0, 0, 0, 0]).1.height ∧
    (Shell.SetSize ⟨mkSystem 80 24, ⟨80, 24⟩, [], []⟩
        (unmarshalWinChg [0, 0, 0, 120, 0, 0, 0, 40, 0, 0, 0, 0, 0, 0, 0, 0]).1.width
        (unmarshalWinChg
          [0, 0, 0, 120, 0, 0, 0, 40, 0, 0, 0, 0, 0, 0, 0, 0]).1.height).terminal
      = { width :=
            (unmarshalWinChg [0, 0, 0, 120, 0, 0, 0, 40, 0, 0, 0, 0, 0, 0, 0, 0]).1.width,
          height :=
            (unmarshalWinChg
              [0, 0, 0, 120, 0, 0, 0, 40, 0, 0, 0, 0, 0, 0, 0, 0]).1.height } :=
  C10_window_change_failure_applies_parsed_dims (fun _ _ => (0, true))
    { initChanState with shellRunning := true }
    ⟨mkSystem 80 24, ⟨80, 24⟩, [], []⟩
    [0, 0, 0, 120, 0, 0, 0, 40, 0, 0, 0, 0, 0, 0, 0, 0] rfl rfl

/- ===== Port forwarding (ssh.go, SSHSession.handleNewConn, direct-tcpip) ===== -/

/-- Decimal digit character. -/
def digitChar (n : Nat) : Char := Char.ofNat (48 + n)

/-- Fuel-driven decimal conversion helper. -/
def natToStringAux : Nat → Nat → List Char
  | 0, _ => []
  | fuel + 1, n =>
      if n < 10 then [digitChar n]
      else natToStringAux fuel (n / 10) ++ [digitChar (n % 10)]

/-- Go `strconv.Itoa` restricted to the nonnegative port numbers that occur
in a channel-open payload. -/
def natToString (n : Nat) : String := String.mk (natToStringAux (n + 1) n)

/-- Parsed payload of a direct-tcpip channel open (`tunnelRequest`). -/
structure TunnelReq where
  remoteHost : String
  remotePort : Nat
  localHost : String
  localPort : Nat
deriving Repr, DecidableEq

/-- Outcome of a direct-tcpip channel open: rejected with a wire-level reason,
or accepted with a destination that is then dialed exactly once. -/
inductive TcpOutcome where
  | rejected (reason : String) : TcpOutcome
  | accepted (dialHost : String) : TcpOutcome
deriving Repr, DecidableEq

/-- Resolution of a direct-tcpip channel open against the configured
port-redirection policy, from the `direct-tcpip` arm of `handleNewConn`. Under
the map policy the source reads `portMap[strconv.Itoa(port)].(string)`: a port
absent from the table makes the lookup yield a nil interface value and the
non-comma-ok type assertion panic, modeled as `Except.error`; the reject and
accept paths are `Except.ok`. -/
def handleDirectTcpip (portRedirection : String) (portMap : List (String × String))
    (treq : TunnelReq) : Except String TcpOutcome :=
  if portRedirection == "disable" then
    Except.ok (TcpOutcome.rejected "Port forwarding disabled")
  else
    let hostE : Except String String :=
      if portRedirection == "map" then
        match portMap.lookup (natToString treq.remotePort) with
        | none => Except.error "interface conversion: nil is not string"
        | some h => Except.ok h
      else if portRedirection == "direct" then
        Except.ok (treq.remoteHost ++ ":" ++ natToString treq.remotePort)
      else Except.ok ""
    match hostE with
    | Except.error e => Except.error e
    | Except.ok host =>
        if host.length > 0 then Except.ok (TcpOutcome.accepted host)
        else Except.ok (TcpOutcome.rejected "Malformed channel request")

/-- Destinations dialed by `net.Dial` for a given resolution outcome: exactly
one on acceptance, none on rejection or panic. -/
def dialsOf : Except String TcpOutcome → List String
  | Except.ok (TcpOutcome.accepted h) => [h]
  | _ => []

/-- Claim C3 failing input: under the map policy with a table containing only
port 8080, a direct-tcpip request for port 22 does not dial, but it is not
rejected either — the lookup-and-assert panics (the rejection the spec
requires is never sent), while the same table does accept and dial a mapped
port. -/
theorem C3_unmapped_port_panics_not_rejected :
    handleDirectTcpip "map" [("8080", "192.168.1.2:8080")] ⟨"localhost", 22, "", 0⟩
        = Except.error "interface conversion: nil is not string" ∧
    dialsOf (handleDirectTcpip "map" [("8080", "192.168.1.2:8080")]
        ⟨"localhost", 22, "", 0⟩) = [] ∧
    handleDirectTcpip "map" [("8080", "192.168.1.2:8080")] ⟨"localhost", 8080, "", 0⟩
        = Except.ok (TcpOutcome.accepted "192.168.1.2:8080") := by
  refine ⟨rfl, rfl, rfl⟩

/- ===== Interactive shell loop (os package, Shell.HandleRequest) ===== -/

/-- Whitespace recognized by Go `strings.TrimSpace` on the ASCII inputs of
this model. -/
def isGoSpace (c : Char) : Bool :=
  c == ' ' || c == '\t' || c == '\n' || c == '\r' ||
    c == Char.ofNat 11 || c == Char.ofNat 12

/-- Go `strings.TrimSpace`. -/
def goTrim (s : String) : String :=
  String.mk (((s.toList.dropWhile isGoSpace).reverse.dropWhile isGoSpace).reverse)

/-- Go `path.Base`: empty path gives dot, trailing slashes are stripped, the
part after the last slash is kept, and an all-slash path gives slash. -/
def pathBase (p : String) : String :=
  if p == "" then "."
  else
    let cs := (p.toList.reverse.dropWhile (fun c => c == '/')).reverse
    let base := (cs.reverse.takeWhile (fun c => c != '/')).reverse
    if base.isEmpty then "/" else String.mk base

/-- Single-space join, inverse of `goSplitSpace` on its output. -/
def joinSpace : List String → String
  | [] => ""
  | [x] => x
  | x :: rest => x ++ " " ++ joinSpace rest

/-- Go `strings.SplitN(cmd, " ", 2)`: the first space-separated token and the
verbatim remainder. -/
def splitN2 (s : String) : List String :=
  match goSplitSpace s with
  | [] => [s]
  | [x] => [x]
  | x :: rest => [x, joinSpace rest]

/-- Go conversion `string(n)` applied to an `int`: the string holding the one
rune with that code point, or the replacement character U+FFFD when the value
is not a valid code point. This is not a decimal rendering. -/
def goStringOfInt (n : Int) : String :=
  if (0 ≤ n ∧ n < 0xD800) ∨ (0xE000 ≤ n ∧ n ≤ 0x10FFFF) then
    String.mk [Char.ofNat n.toNat]
  else String.mk [Char.ofNat 0xFFFD]

/-- Map-style update of the environment list: name unique, last write wins. -/
def envSet (env : List (String × String)) (k v : String) : List (String × String) :=
  env.filter (fun e => e.1 != k) ++ [(k, v)]

/-- Embedding of `Shell.Exec`: resolve the base name of the requested path in
the Command Table; found commands run and report their exit status with
success, unknown commands report -1 with failure (`os.ErrNotExist`). -/
def Shell.Exec (funcMap : List (String × (List String → SystemM → Int)))
    (sys : SystemM) (path : String) (args : List String) : Int × Bool :=
  match funcMap.lookup (pathBase path) with
  | some execFunc => (execFunc args sys, true)
  | none => (-1, false)

/-- One successfully read line of the `cmdLoop` in `Shell.HandleRequest`: trim,
ignore blank lines, signal termination 0 on logout or quit, the cd builtin
(`sys.Chdir` lives outside the given source and is a parameter returning the
updated context or `none` on failure), the inert export builtin, and command
dispatch, which on success stores the exit status into the `?` environment
variable via the Go conversion `string(n)`. -/
def Shell.handleLine (funcMap : List (String × (List String → SystemM → Int)))
    (chdir : SystemM → String → Option SystemM) (sh : ShellSt)
    (line : String) : ShellSt :=
  let cmd := goTrim line
  if goTrim cmd == "" then sh
  else if cmd == "logout" || cmd == "quit" then
    { sh with termWrites := sh.termWrites ++ [0] }
  else if goStartsWith cmd "cd" then
    let args := goSplitSpace cmd
    if args.length > 1 then
      match chdir sh.sys (args.getD 1 "") with
      | some sys2 => { sh with sys := sys2 }
      | none => { sh with outWrites := sh.outWrites ++
          ["-bash: cd: " ++ args.getD 1 "" ++ ": No such file or directory\n"] }
    else sh
  else if goStartsWith cmd "export" then sh
  else
    let args := splitN2 cmd
    let r := Shell.Exec funcMap sh.sys (args.headD "") args.tail
    if r.2 then
      { sh with sys := { sh.sys with
          envVars := envSet sh.sys.envVars "?" (goStringOfInt r.1) } }
    else
      { sh with outWrites := sh.outWrites ++
          [(args.headD "") ++ ": command not found\n"] }

/-- Claim C8 failing input: a Command Table entry named true reporting exit
status 0; after dispatching the line true, the `?` environment variable holds
the one-rune string U+0000 produced by the Go conversion `string(0)`, which is
not the conventional decimal representation of the exit status. -/
theorem C8_exit_status_stored_as_rune_not_decimal :
    ((Shell.handleLine [("true", fun _ _ => 0)] (fun _ _ => none)
        ⟨mkSystem 80 24, ⟨80, 24⟩, [], []⟩ "true").sys.envVars.lookup "?")
        = some (String.mk [Char.ofNat 0]) ∧
    ((Shell.handleLine [("false", fun _ _ => 1)] (fun _ _ => none)
        ⟨mkSystem 80 24, ⟨80, 24⟩, [], []⟩ "false").sys.envVars.lookup "?")
        = some (String.mk [Char.ofNat 1]) ∧
    String.mk [Char.ofNat 0] ≠ "0" ∧ String.mk [Char.ofNat 1] ≠ "1" := by
  refine ⟨rfl, rfl, by decide, by decide⟩
